import Mathlib

set_option linter.unusedVariables false

/-! Verification development for the product-store service: the `Product`
model of `service/models.py` and the bootstrap sequence of
`service/__init__.py`.

Python values that can appear in a product mapping are modelled by
`PyValue`; `decimal.Decimal` objects by `PyDecimal` (sign / coefficient /
exponent triples plus the special values, following the General Decimal
Arithmetic representation used by CPython's `decimal` module); the
exceptions the modelled code can raise by `PyErr`.  The relational store
and the ORM session, which live outside the repository, are modelled by
`Store` following the spec: the store assigns fresh integer ids at create
time and holds one row per id. -/

/-- The `Category` enumeration of `models.py` (members UNKNOWN=0, CLOTHS=1,
FOOD=2, HOUSEWARES=3, AUTOMOTIVE=4, TOOLS=5). -/
inductive Category where
  | UNKNOWN
  | CLOTHS
  | FOOD
  | HOUSEWARES
  | AUTOMOTIVE
  | TOOLS
deriving DecidableEq, Repr

/-- `Category.<member>.name` in Python: the member's name string. -/
def Category.name : Category → String
  | .UNKNOWN => "UNKNOWN"
  | .CLOTHS => "CLOTHS"
  | .FOOD => "FOOD"
  | .HOUSEWARES => "HOUSEWARES"
  | .AUTOMOTIVE => "AUTOMOTIVE"
  | .TOOLS => "TOOLS"

/-- Member lookup performed by `getattr(Category, s)`: the member whose name
is `s`, if any.  For any other string, `getattr` raises `AttributeError`. -/
def Category.fromName (s : String) : Option Category :=
  if s = "UNKNOWN" then some .UNKNOWN
  else if s = "CLOTHS" then some .CLOTHS
  else if s = "FOOD" then some .FOOD
  else if s = "HOUSEWARES" then some .HOUSEWARES
  else if s = "AUTOMOTIVE" then some .AUTOMOTIVE
  else if s = "TOOLS" then some .TOOLS
  else Option.none

/-- A Python `decimal.Decimal`: a finite value is `(sign, coefficient,
exponent)` with value `(-1)^sign * coefficient * 10^exponent`; the
coefficient is a natural number, so it carries no leading zeros (matching
CPython, whose `_int` digit string is produced by `int(...)`), while
trailing zeros are recorded in the exponent.  NaN payloads and the sign of
NaN are abstracted away: no modelled code observes them. -/
inductive PyDecimal where
  | finite (sign : Bool) (coeff : Nat) (exp : Int)
  | nan (signaling : Bool)
  | infin (sign : Bool)
deriving DecidableEq, Repr

/-- A Python value that can appear in a serialized product mapping. -/
inductive PyValue where
  | none
  | bool (b : Bool)
  | int (n : Int)
  | str (s : String)
  | dec (d : PyDecimal)
  | dict (entries : List (String × PyValue))
deriving Repr

/-- Python type name of a value, as printed inside TypeError messages. -/
def PyValue.typeName : PyValue → String
  | .none => "NoneType"
  | .bool _ => "bool"
  | .int _ => "int"
  | .str _ => "str"
  | .dec _ => "decimal.Decimal"
  | .dict _ => "dict"

/-- Python truthiness of a modelled value (`bool(v)`). -/
def PyValue.truthy : PyValue → Bool
  | .none => false
  | .bool b => b
  | .int n => !(n == 0)
  | .str s => !(s == "")
  | .dec (.finite _ c _) => !(c == 0)
  | .dec (.nan _) => true
  | .dec (.infin _) => true
  | .dict l => !l.isEmpty

/-- The exceptions raised by the modelled code: the module's own
`DataValidationError`, plus the built-in exceptions that can escape
(`AttributeError` from `getattr`, `decimal.InvalidOperation`, `TypeError`). -/
inductive PyErr where
  | dataValidationError (msg : String)
  | attributeError (attr : String)
  | invalidOperation
  | typeError (msg : String)
deriving DecidableEq, Repr

/-! ### Decimal strings

`Decimal.__str__` (the to-scientific-string conversion) and construction of
a `Decimal` from a string, both following CPython's `_pydecimal`. -/

/-- The digit character for `d < 10` (`'0'` + d). -/
def decDigitChar (d : Nat) : Char := Char.ofNat (48 + d)

/-- The decimal digit string of a coefficient, most significant digit
first; `"0"` for zero (CPython: `str(int(...))`). -/
def coeffChars (n : Nat) : List Char :=
  if n = 0 then ['0'] else ((Nat.digits 10 n).map decDigitChar).reverse

/-- `"%+d" % n`: the integer with an explicit sign, as used for the
exponent field of a scientific-notation decimal string. -/
def intSignedChars (n : Int) : List Char :=
  if n < 0 then '-' :: coeffChars n.natAbs else '+' :: coeffChars n.natAbs

/-- `Decimal.__str__` of CPython's `_pydecimal` (the to-scientific-string
conversion of the General Decimal Arithmetic specification). -/
def decToSciChars : PyDecimal → List Char
  | .finite sign coeff exp =>
    let ds := coeffChars coeff
    let leftdigits : Int := exp + ds.length
    let dotplace : Int := if exp ≤ 0 ∧ -6 < leftdigits then leftdigits else 1
    let body : List Char :=
      if dotplace ≤ 0 then
        '0' :: '.' :: (List.replicate (-dotplace).toNat '0' ++ ds)
      else if (ds.length : Int) ≤ dotplace then
        ds ++ List.replicate (dotplace - ds.length).toNat '0'
      else
        ds.take dotplace.toNat ++ '.' :: ds.drop dotplace.toNat
    let expPart : List Char :=
      if leftdigits = dotplace then [] else 'E' :: intSignedChars (leftdigits - dotplace)
    (if sign then ['-'] else []) ++ body ++ expPart
  | .nan signaling => if signaling then ['s', 'N', 'a', 'N'] else ['N', 'a', 'N']
  | .infin sign => (if sign then ['-'] else []) ++ ['I', 'n', 'f', 'i', 'n', 'i', 't', 'y']

/-- `str(d)` for a modelled Decimal. -/
def decToString (d : PyDecimal) : String := ⟨decToSciChars d⟩

/-- The numeric value of a digit character. -/
def charDigit (c : Char) : Nat := c.toNat - 48

/-- The natural number denoted by a digit string (most significant digit
first); leading zeros are harmless. -/
def coeffOfChars (l : List Char) : Nat :=
  l.foldl (fun a c => 10 * a + charDigit c) 0

/-- Strip an optional leading sign: returns (isNegative, rest). -/
def parseSign (cs : List Char) : Bool × List Char :=
  match cs with
  | [] => (false, [])
  | ch :: r => if ch = '-' then (true, r) else if ch = '+' then (false, r) else (false, ch :: r)

/-- Parse the exponent part of a numeric string: an optional sign followed
by at least one digit, consuming the whole input. -/
def parseSignedDigits (cs : List Char) : Option Int :=
  let p := parseSign cs
  if p.2.isEmpty || !(p.2.all Char.isDigit) then Option.none
  else some (if p.1 then -(coeffOfChars p.2 : Int) else (coeffOfChars p.2 : Int))

/-- Parse the numeric alternative of CPython's decimal-string grammar,
`(?=\d|\.\d) (?P<int>\d*) (\.(?P<frac>\d*))? (E(?P<exp>[-+]?\d+))?`
anchored at the end of input: returns the coefficient (the concatenated
digits, read as an integer) and the exponent (the written exponent minus
the number of fraction digits).  `splitFrac` handles the optional
fraction part `(\.\d*)?`. -/
def splitFrac (r1 : List Char) : List Char × List Char :=
  match r1 with
  | [] => ([], [])
  | ch :: rest =>
    if ch = '.' then (rest.takeWhile Char.isDigit, rest.dropWhile Char.isDigit)
    else ([], ch :: rest)

def parseNumeric (cs : List Char) : Option (Nat × Int) :=
  let ip := cs.takeWhile Char.isDigit
  let r1 := cs.dropWhile Char.isDigit
  let fr := splitFrac r1
  let fp := fr.1
  if ip.isEmpty && fp.isEmpty then Option.none
  else
    match fr.2 with
    | [] => some (coeffOfChars (ip ++ fp), -(fp.length : Int))
    | c :: rest =>
      if c = 'E' ∨ c = 'e' then
        match parseSignedDigits rest with
        | some ev => some (coeffOfChars (ip ++ fp), ev - fp.length)
        | Option.none => Option.none
      else Option.none

/-- `NaN\d*` (case already lowered), the NaN alternative with an optional
diagnostic payload. -/
def isNanChars (l : List Char) : Bool :=
  match l with
  | 'n' :: 'a' :: 'n' :: rest => rest.all Char.isDigit
  | _ => false

/-- Parse a (stripped, underscore-free) decimal string: an optional sign
followed by either a numeric part, `Inf`/`Infinity`, or `[s]NaN\d*`, all
case-insensitive.  `Option.none` means the construction signals
`ConversionSyntax`, raised as `decimal.InvalidOperation`. -/
def parseDecCore (cs0 : List Char) : Option PyDecimal :=
  let sp := parseSign cs0
  match parseNumeric sp.2 with
  | some ce => some (.finite sp.1 ce.1 ce.2)
  | Option.none =>
    let low := sp.2.map Char.toLower
    if low = ['i', 'n', 'f'] ∨ low = ['i', 'n', 'f', 'i', 'n', 'i', 't', 'y'] then
      some (.infin sp.1)
    else
      match low with
      | 's' :: rest => if isNanChars rest then some (.nan true) else Option.none
      | _ => if isNanChars low then some (.nan false) else Option.none

/-- The whitespace characters removed by `str.strip()` (ASCII subset; the
strings the modelled code produces contain none). -/
def isWSChar (c : Char) : Bool :=
  c == ' ' || c == '\t' || c == '\n' || c == '\r' || c == '\x0b' || c == '\x0c'

/-- `str.strip()` on a character list. -/
def pyStrip (l : List Char) : List Char :=
  ((l.dropWhile isWSChar).reverse.dropWhile isWSChar).reverse

/-- `Decimal(s)` for a string argument, following `_pydecimal.__new__`:
`value.strip().replace("_", "")` and then the anchored grammar above. -/
def parseDecimalString (s : String) : Option PyDecimal :=
  parseDecCore ((pyStrip s.data).filter (fun c => !(c == '_')))

/-- `Decimal(v)` for the modelled argument values: strings are parsed
(failure signals `InvalidOperation`), ints and bools (Python bools are
ints) convert exactly, Decimals pass through, anything else raises
`TypeError`. -/
def decimalFromValue : PyValue → Except PyErr PyDecimal
  | .str s =>
    match parseDecimalString s with
    | some d => .ok d
    | Option.none => .error .invalidOperation
  | .int n => .ok (.finite (n < 0) n.natAbs 0)
  | .bool b => .ok (.finite false (if b then 1 else 0) 0)
  | .dec d => .ok d
  | v => .error (.typeError ("conversion from " ++ v.typeName ++ " to Decimal is not supported"))

/-- `d < 0` for a Decimal: comparison of a NaN with a number signals
`InvalidOperation` (the trap is enabled in the default context), so the
comparison raises rather than returning a boolean. -/
def decLtZero : PyDecimal → Except PyErr Bool
  | .finite s c _ => .ok (s && !(c == 0))
  | .nan _ => .error .invalidOperation
  | .infin s => .ok s

/-! ### The Product model -/

/-- The `Product` model.  `id` is `Option Int` (`Option.none` is Python
`None`); `name`, `description` and `available` hold arbitrary Python
values, because `deserialize` assigns the mapping's entries to them
verbatim; `price` holds a Decimal (the only kind of value the modelled
code ever assigns to it) and `category` a `Category` member. -/
structure Product where
  id : Option Int
  name : PyValue
  description : PyValue
  price : PyDecimal
  available : PyValue
  category : Category
deriving Repr

/-- A freshly constructed `Product()` before any field assignment: all
attributes unset (`None` / column defaults; the placeholder price and
category are never read by the modelled operations before being
assigned). -/
def freshProduct : Product :=
  { id := Option.none
  , name := .none
  , description := .none
  , price := .finite false 0 0
  , available := .none
  , category := .UNKNOWN }

/-- `data[k]` on a Python dict, modelled as first-match lookup in the
association list (a Python dict has unique keys). -/
def dictGet (l : List (String × PyValue)) (k : String) : Option PyValue :=
  match l with
  | [] => Option.none
  | kv :: rest => if kv.1 = k then some kv.2 else dictGet rest k

/-- `del data[k]`: the mapping without key `k`. -/
def removeKey (l : List (String × PyValue)) (k : String) : List (String × PyValue) :=
  l.filter (fun kv => !(kv.1 == k))

/-- `self.id` rendered as a Python value for serialization. -/
def idValue : Option Int → PyValue
  | Option.none => .none
  | some n => .int n

/-- `Product.serialize`: the dict literal of `models.py` — `id` verbatim,
`name`/`description`/`available` verbatim, `price` as `str(self.price)`,
`category` as `self.category.name`. -/
def Product.serialize (self : Product) : List (String × PyValue) :=
  [ ("id", idValue self.id)
  , ("name", self.name)
  , ("description", self.description)
  , ("price", .str (decToString self.price))
  , ("available", self.available)
  , ("category", .str self.category.name) ]

/-- The checks `deserialize` performs after all field assignments: empty
name or description, then the sign of the price (which raises
`InvalidOperation` out of `deserialize` when the price is a NaN, since
this code sits outside the `try` block). -/
def deserializeChecks (self : Product) : Product × Option PyErr :=
  if !self.name.truthy || !self.description.truthy then
    (self, some (.dataValidationError "Invalid product: name and description are required"))
  else
    match decLtZero self.price with
    | .error e => (self, some e)
    | .ok true => (self, some (.dataValidationError "Invalid product: price must be >= 0"))
    | .ok false => (self, Option.none)

/-- The body of `Product.deserialize` once the argument is known to be a
dict.  Assignments happen in source order (name, description, price,
available, category), mutating `self` as they go; a missing key raises
`KeyError`, caught and re-raised as `DataValidationError` naming the key;
a price that fails to parse raises `InvalidOperation`, caught and
re-raised as `DataValidationError "Invalid price value"`; `Decimal` or
`getattr` applied to a value of the wrong type raises `TypeError`, caught
and re-raised as a `DataValidationError`; `getattr(Category, s)` for a
string that names no member raises `AttributeError`, which none of the
handlers catch, so it escapes.  The returned product is the receiver as
mutated so far, paired with the exception if one was raised. -/
def Product.deserializeFields (self : Product) (data : List (String × PyValue)) :
    Product × Option PyErr :=
  match dictGet data "name" with
  | Option.none => (self, some (.dataValidationError "Invalid product: missing name"))
  | some nv =>
    let self1 := { self with name := nv }
    match dictGet data "description" with
    | Option.none => (self1, some (.dataValidationError "Invalid product: missing description"))
    | some dv =>
      let self2 := { self1 with description := dv }
      match dictGet data "price" with
      | Option.none => (self2, some (.dataValidationError "Invalid product: missing price"))
      | some pv =>
        match decimalFromValue pv with
        | .error .invalidOperation =>
          (self2, some (.dataValidationError "Invalid price value"))
        | .error (.typeError m) =>
          (self2, some (.dataValidationError ("Invalid value for product: " ++ m)))
        | .error e => (self2, some e)
        | .ok pd =>
          let self3 := { self2 with price := pd }
          match dictGet data "available" with
          | Option.none => (self3, some (.dataValidationError "Invalid product: missing available"))
          | some av =>
            let self4 := { self3 with available := av }
            match dictGet data "category" with
            | Option.none =>
              (self4, some (.dataValidationError "Invalid product: missing category"))
            | some cv =>
              match cv with
              | .str cs =>
                match Category.fromName cs with
                | Option.none => (self4, some (.attributeError cs))
                | some c => deserializeChecks { self4 with category := c }
              | other =>
                (self4, some (.dataValidationError
                  ("Invalid value for product: attribute name must be string, not '"
                    ++ other.typeName ++ "'")))

/-- `Product.deserialize`: rejects a non-dict argument, otherwise runs the
field assignments and checks above.  Returns the receiver as mutated so
far together with the exception raised, if any (`Option.none` = success,
where Python returns `self`). -/
def Product.deserialize (self : Product) (data : PyValue) : Product × Option PyErr :=
  match data with
  | .dict entries => Product.deserializeFields self entries
  | _ => (self, some (.dataValidationError "Invalid data format for deserializing a Product"))

/-! ### The store

The relational store behind the ORM session is external to the repository;
it is modelled from the spec (§3, §4.2): rows keyed by integer id, with
fresh ids assigned at create time. -/

/-- Modelled from the spec: the relational store — a list of persisted
rows (each a `Product` whose `id` is set) plus the next id the store will
assign. -/
structure Store where
  rows : List Product
  nextId : Int
deriving Repr

/-- `cls.query.get(i)`: the stored row with primary key `i`, if any. -/
def Store.findId (s : Store) (i : Int) : Option Product :=
  s.rows.find? (fun r => r.id == some i)

/-- `query.get` applied to a possibly unset id (`get(None)` finds
nothing). -/
def Store.queryGet (s : Store) : Option Int → Option Product
  | Option.none => Option.none
  | some i => Store.findId s i

/-- Python truthiness of the `id` attribute (`not self.id` is true for
`None` and for `0`). -/
def idTruthy : Option Int → Bool
  | Option.none => false
  | some n => !(n == 0)

/-- `Product.create`: resets `self.id = None`, adds the instance to the
session and commits; per the spec the store assigns the next fresh id to
the new row.  `create` performs no validation of the field values and has
no failure path in this model. -/
def Product.create (self : Product) (s : Store) : Product × Store :=
  let self1 := { self with id := Option.none }
  let self2 := { self1 with id := some s.nextId }
  (self2, { rows := s.rows ++ [self2], nextId := s.nextId + 1 })

/-- `Product.update`: raises `DataValidationError` when `not self.id` or
when `self.query.get(self.id)` finds no row; otherwise commits, which per
the spec overwrites the stored row with the instance's current in-memory
field values (full overwrite).  Performs no validation of the field
values. -/
def Product.update (self : Product) (s : Store) : Store × Option PyErr :=
  if !(idTruthy self.id) || (Store.queryGet s self.id).isNone then
    (s, some (.dataValidationError "Update called with invalid ID field"))
  else
    ({ s with rows := s.rows.map (fun r => if r.id == self.id then self else r) }, Option.none)

/-- `Product.delete`: raises `DataValidationError` when `not self.id`;
fetches the row by id and raises `DataValidationError` when there is none;
otherwise deletes that row and commits. -/
def Product.delete (self : Product) (s : Store) : Store × Option PyErr :=
  if !(idTruthy self.id) then
    (s, some (.dataValidationError "Delete called with empty ID field"))
  else
    match Store.queryGet s self.id with
    | Option.none =>
      (s, some (.dataValidationError "Attempt to delete a Product that does not exist"))
    | some _ =>
      ({ s with rows := s.rows.filter (fun r => !(r.id == self.id)) }, Option.none)

/-- `Product.find(product_id)`: `cls.query.get(product_id)`. -/
def Product.find (s : Store) (productId : Int) : Option Product :=
  Store.findId s productId

/-! ### Bootstrap (`service/__init__.py`) -/

/-- Severity of a log record emitted during bootstrap. -/
inductive LogLevel where
  | info
  | critical
deriving DecidableEq, Repr

/-- Outcome of the model-initialization step of the package bootstrap:
the log records it emits and, if it terminated the process, the exit
status passed to `sys.exit`. -/
structure BootResult where
  logs : List (LogLevel × String)
  exitCode : Option Nat
deriving DecidableEq, Repr

/-- The `try: init_db(app) / except Exception` block of
`service/__init__.py`, parameterized by the outcome of database
initialization (an external effect): on any exception `e` it logs
`"%s: Cannot continue" % e` at critical severity and calls `sys.exit(4)`;
on success it logs `"Service initialized!"` and the process continues. -/
def serviceBootstrap (initDbResult : Except String Unit) : BootResult :=
  match initDbResult with
  | .error e => { logs := [(.critical, e ++ ": Cannot continue")], exitCode := some 4 }
  | .ok _ => { logs := [(.info, "Service initialized!")], exitCode := Option.none }

/-! ### Lemmas about digit strings -/

theorem charDigit_decDigitChar {d : Nat} (h : d < 10) : charDigit (decDigitChar d) = d := by
  interval_cases d <;> decide

theorem isDigit_decDigitChar {d : Nat} (h : d < 10) : (decDigitChar d).isDigit = true := by
  interval_cases d <;> decide

theorem coeffChars_ne_nil (n : Nat) : coeffChars n ≠ [] := by
  unfold coeffChars
  split
  · simp
  · next h =>
    simp only [ne_eq, List.reverse_eq_nil_iff, List.map_eq_nil_iff]
    exact Nat.digits_ne_nil_iff_ne_zero.mpr h

theorem coeffChars_digits (n : Nat) : ∀ ch ∈ coeffChars n, ch.isDigit = true := by
  unfold coeffChars
  split
  · intro ch h
    simp only [List.mem_singleton] at h
    subst h
    decide
  · intro ch h
    rw [List.mem_reverse] at h
    obtain ⟨d, hd, rfl⟩ := List.mem_map.mp h
    exact isDigit_decDigitChar (Nat.digits_lt_base (by norm_num) hd)

theorem coeffOfChars_foldl (l : List Char) (a : Nat) :
    l.foldl (fun a c => 10 * a + charDigit c) a = a * 10 ^ l.length + coeffOfChars l := by
  induction l generalizing a with
  | nil => simp [coeffOfChars]
  | cons c t ih =>
    simp only [List.foldl_cons, List.length_cons]
    rw [ih (10 * a + charDigit c)]
    have hc : coeffOfChars (c :: t) = (10 * 0 + charDigit c) * 10 ^ t.length + coeffOfChars t := by
      simp only [coeffOfChars, List.foldl_cons]
      exact ih (10 * 0 + charDigit c)
    rw [hc]
    ring

theorem coeffOfChars_append (l₁ l₂ : List Char) :
    coeffOfChars (l₁ ++ l₂) = coeffOfChars l₁ * 10 ^ l₂.length + coeffOfChars l₂ := by
  have h : coeffOfChars (l₁ ++ l₂)
      = l₂.foldl (fun a c => 10 * a + charDigit c) (coeffOfChars l₁) := by
    simp [coeffOfChars, List.foldl_append]
  rw [h, coeffOfChars_foldl]

theorem coeffOfChars_cons_zero (l : List Char) : coeffOfChars ('0' :: l) = coeffOfChars l := rfl

theorem coeffOfChars_replicate_zero (n : Nat) : coeffOfChars (List.replicate n '0') = 0 := by
  induction n with
  | zero => rfl
  | succ k ih => rw [List.replicate_succ, coeffOfChars_cons_zero, ih]

theorem coeffOfChars_replicate_zero_append (n : Nat) (l : List Char) :
    coeffOfChars (List.replicate n '0' ++ l) = coeffOfChars l := by
  rw [coeffOfChars_append, coeffOfChars_replicate_zero]
  ring

theorem coeffOfChars_map_rev (dsN : List Nat) (h : ∀ d ∈ dsN, d < 10) :
    coeffOfChars ((dsN.map decDigitChar).reverse) = Nat.ofDigits 10 dsN := by
  induction dsN with
  | nil => rfl
  | cons d t ih =>
    rw [List.map_cons, List.reverse_cons, coeffOfChars_append]
    have hd : d < 10 := h d (List.mem_cons_self d t)
    have ht : ∀ x ∈ t, x < 10 := fun x hx => h x (List.mem_cons_of_mem _ hx)
    have hone : coeffOfChars [decDigitChar d] = d := by
      simp only [coeffOfChars, List.foldl_cons, List.foldl_nil]
      rw [charDigit_decDigitChar hd]
      omega
    rw [ih ht, hone, Nat.ofDigits_cons]
    simp only [List.length_cons, List.length_nil, pow_one]
    ring

theorem coeffOfChars_coeffChars (n : Nat) : coeffOfChars (coeffChars n) = n := by
  unfold coeffChars
  split
  · next h => subst h; rfl
  · rw [coeffOfChars_map_rev _ (fun d hd => Nat.digits_lt_base (by norm_num) hd)]
    exact Nat.ofDigits_digits 10 n

/-! ### Lemmas about scanning digit prefixes -/

theorem takeWhile_append_all {p : Char → Bool} {l₁ : List Char} (l₂ : List Char)
    (h : ∀ c ∈ l₁, p c = true) : (l₁ ++ l₂).takeWhile p = l₁ ++ l₂.takeWhile p := by
  induction l₁ with
  | nil => simp
  | cons c t ih =>
    simp only [List.cons_append, List.takeWhile_cons, h c (List.mem_cons_self c t), if_pos]
    rw [ih (fun x hx => h x (List.mem_cons_of_mem _ hx))]

theorem dropWhile_append_all {p : Char → Bool} {l₁ : List Char} (l₂ : List Char)
    (h : ∀ c ∈ l₁, p c = true) : (l₁ ++ l₂).dropWhile p = l₂.dropWhile p := by
  induction l₁ with
  | nil => simp
  | cons c t ih =>
    simp only [List.cons_append, List.dropWhile_cons, h c (List.mem_cons_self c t), if_pos]
    exact ih (fun x hx => h x (List.mem_cons_of_mem _ hx))

theorem takeWhile_all {p : Char → Bool} {l : List Char} (h : ∀ c ∈ l, p c = true) :
    l.takeWhile p = l := by
  have := takeWhile_append_all [] h
  simpa using this

theorem dropWhile_all {p : Char → Bool} {l : List Char} (h : ∀ c ∈ l, p c = true) :
    l.dropWhile p = [] := by
  have := dropWhile_append_all [] h
  simpa using this

theorem takeWhile_cons_neg {p : Char → Bool} {c : Char} (l : List Char) (h : p c = false) :
    (c :: l).takeWhile p = [] := by
  simp [List.takeWhile_cons, h]

theorem dropWhile_cons_neg {p : Char → Bool} {c : Char} (l : List Char) (h : p c = false) :
    (c :: l).dropWhile p = c :: l := by
  simp [List.dropWhile_cons, h]

theorem dropWhile_none {p : Char → Bool} {l : List Char} (h : ∀ c ∈ l, p c = false) :
    l.dropWhile p = l := by
  cases l with
  | nil => rfl
  | cons c t => exact dropWhile_cons_neg t (h c (List.mem_cons_self c t))

/-! ### The characters appearing in a finite decimal string -/

/-- The characters that `decToSciChars` can produce for a finite value. -/
def sciChar (c : Char) : Prop :=
  c.isDigit = true ∨ c = '-' ∨ c = '+' ∨ c = '.' ∨ c = 'E'

theorem sciChar_coeffChars {n : Nat} {c : Char} (h : c ∈ coeffChars n) : sciChar c :=
  Or.inl (coeffChars_digits n c h)

theorem sciChar_intSignedChars {n : Int} {c : Char} (h : c ∈ intSignedChars n) : sciChar c := by
  unfold intSignedChars at h
  split at h <;> rcases List.mem_cons.mp h with rfl | h'
  · exact Or.inr (Or.inl rfl)
  · exact sciChar_coeffChars h'
  · exact Or.inr (Or.inr (Or.inl rfl))
  · exact sciChar_coeffChars h'

theorem sciChar_body (dp : Int) (ds : List Char) (hds : ∀ x ∈ ds, x.isDigit = true) :
    ∀ c ∈ (if dp ≤ 0 then '0' :: '.' :: (List.replicate (-dp).toNat '0' ++ ds)
           else if (ds.length : Int) ≤ dp then ds ++ List.replicate (dp - ds.length).toNat '0'
           else ds.take dp.toNat ++ '.' :: ds.drop dp.toNat), sciChar c := by
  intro c h
  split at h
  · rcases List.mem_cons.mp h with rfl | h
    · exact Or.inl (by decide)
    rcases List.mem_cons.mp h with rfl | h
    · exact Or.inr (Or.inr (Or.inr (Or.inl rfl)))
    rcases List.mem_append.mp h with h | h
    · rcases List.eq_of_mem_replicate h with rfl
      exact Or.inl (by decide)
    · exact Or.inl (hds c h)
  · split at h
    · rcases List.mem_append.mp h with h | h
      · exact Or.inl (hds c h)
      · rcases List.eq_of_mem_replicate h with rfl
        exact Or.inl (by decide)
    · rcases List.mem_append.mp h with h | h
      · exact Or.inl (hds c (List.take_subset _ _ h))
      · rcases List.mem_cons.mp h with rfl | h
        · exact Or.inr (Or.inr (Or.inr (Or.inl rfl)))
        · exact Or.inl (hds c (List.drop_subset _ _ h))

theorem sciChar_expPart (a b : Int) :
    ∀ c ∈ (if a = b then ([] : List Char) else 'E' :: intSignedChars (a - b)), sciChar c := by
  intro c h
  split at h
  · exact absurd h (List.not_mem_nil c)
  · rcases List.mem_cons.mp h with rfl | h
    · exact Or.inr (Or.inr (Or.inr (Or.inr rfl)))
    · exact sciChar_intSignedChars h

theorem sciChar_decToSciChars {s : Bool} {n : Nat} {e : Int} {c : Char}
    (h : c ∈ decToSciChars (.finite s n e)) : sciChar c := by
  unfold decToSciChars at h
  simp only [List.mem_append] at h
  rcases h with (h | h) | h
  · split at h
    · rcases List.mem_singleton.mp h with rfl
      exact Or.inr (Or.inl rfl)
    · exact absurd h (List.not_mem_nil c)
  · exact sciChar_body _ _ (coeffChars_digits n) c h
  · exact sciChar_expPart _ _ c h

theorem not_ws_of_sciChar {c : Char} (h : sciChar c) : isWSChar c = false := by
  rcases h with h | rfl | rfl | rfl | rfl
  · by_contra hw
    rw [Bool.not_eq_false] at hw
    simp only [isWSChar, Bool.or_eq_true, beq_iff_eq] at hw
    rcases hw with ((((rfl | rfl) | rfl) | rfl) | rfl) | rfl <;> exact absurd h (by decide)
  · decide
  · decide
  · decide
  · decide

theorem not_underscore_of_sciChar {c : Char} (h : sciChar c) : (c == '_') = false := by
  rcases h with h | rfl | rfl | rfl | rfl
  · by_contra hw
    rw [Bool.not_eq_false, beq_iff_eq] at hw
    subst hw
    exact absurd h (by decide)
  · decide
  · decide
  · decide
  · decide

theorem pyStrip_of_no_ws {l : List Char} (h : ∀ c ∈ l, isWSChar c = false) : pyStrip l = l := by
  unfold pyStrip
  rw [dropWhile_none h, dropWhile_none (fun c hc => h c (List.mem_reverse.mp hc)),
    List.reverse_reverse]

theorem filter_of_no_underscore {l : List Char} (h : ∀ c ∈ l, (c == '_') = false) :
    l.filter (fun c => !(c == '_')) = l := by
  induction l with
  | nil => rfl
  | cons c t ih =>
    rw [List.filter_cons]
    have hc : (!(c == '_')) = true := by rw [h c (List.mem_cons_self c t)]; rfl
    rw [if_pos hc, ih (fun x hx => h x (List.mem_cons_of_mem _ hx))]

/-! ### Parsing the strings the formatter produces -/

theorem isEmpty_false_of_ne_nil {l : List Char} (h : l ≠ []) : l.isEmpty = false := by
  cases l with
  | nil => exact absurd rfl h
  | cons c t => rfl

theorem ne_dash_of_isDigit {c : Char} (h : c.isDigit = true) : ¬(c = '-') := by
  rintro rfl
  exact absurd h (by decide)

theorem ne_plus_of_isDigit {c : Char} (h : c.isDigit = true) : ¬(c = '+') := by
  rintro rfl
  exact absurd h (by decide)

theorem parseSign_cons_digit {c : Char} (l : List Char) (h : c.isDigit = true) :
    parseSign (c :: l) = (false, c :: l) := by
  simp [parseSign, ne_dash_of_isDigit h, ne_plus_of_isDigit h]

theorem parseSign_dash (l : List Char) : parseSign ('-' :: l) = (true, l) := rfl

theorem parseSign_plus (l : List Char) : parseSign ('+' :: l) = (false, l) := rfl

theorem parseSignedDigits_intSignedChars (n : Int) :
    parseSignedDigits (intSignedChars n) = some n := by
  have hdig : (coeffChars n.natAbs).all Char.isDigit = true :=
    List.all_eq_true.mpr (fun c hc => coeffChars_digits n.natAbs c hc)
  have hne : (coeffChars n.natAbs).isEmpty = false :=
    isEmpty_false_of_ne_nil (coeffChars_ne_nil n.natAbs)
  unfold intSignedChars
  split
  · next hneg =>
    simp only [parseSignedDigits, parseSign_dash, hne, hdig, Bool.not_true, Bool.or_false,
      Bool.false_eq_true, if_false, if_true, coeffOfChars_coeffChars]
    congr 1
    omega
  · next hpos =>
    simp only [parseSignedDigits, parseSign_plus, hne, hdig, Bool.not_true, Bool.or_false,
      Bool.false_eq_true, if_false, coeffOfChars_coeffChars]
    congr 1
    omega

theorem parseNumeric_int {l : List Char} (hdig : ∀ c ∈ l, c.isDigit = true) (hne : l ≠ []) :
    parseNumeric l = some (coeffOfChars l, 0) := by
  simp only [parseNumeric]
  rw [takeWhile_all hdig, dropWhile_all hdig]
  simp only [splitFrac, isEmpty_false_of_ne_nil hne, List.isEmpty_nil, Bool.false_and,
    Bool.false_eq_true, if_false, List.append_nil, List.length_nil, Nat.cast_zero, neg_zero]

theorem splitFrac_dot (l : List Char) :
    splitFrac ('.' :: l) = (l.takeWhile Char.isDigit, l.dropWhile Char.isDigit) := by
  simp [splitFrac]

theorem splitFrac_not_dot {c : Char} (l : List Char) (h : ¬(c = '.')) :
    splitFrac (c :: l) = ([], c :: l) := by
  simp [splitFrac, h]

theorem parseNumeric_frac {ip fp : List Char} (hip : ∀ c ∈ ip, c.isDigit = true)
    (hfp : ∀ c ∈ fp, c.isDigit = true) (hne : ip ≠ []) :
    parseNumeric (ip ++ '.' :: fp) = some (coeffOfChars (ip ++ fp), -(fp.length : Int)) := by
  simp only [parseNumeric]
  rw [takeWhile_append_all _ hip, dropWhile_append_all _ hip,
    takeWhile_cons_neg _ (by decide), dropWhile_cons_neg _ (by decide), splitFrac_dot,
    takeWhile_all hfp, dropWhile_all hfp]
  simp [isEmpty_false_of_ne_nil hne]

theorem parseNumeric_int_exp {ip rest : List Char} {ev : Int}
    (hip : ∀ c ∈ ip, c.isDigit = true) (hne : ip ≠ [])
    (hrest : parseSignedDigits rest = some ev) :
    parseNumeric (ip ++ 'E' :: rest) = some (coeffOfChars ip, ev) := by
  simp only [parseNumeric]
  rw [takeWhile_append_all _ hip, dropWhile_append_all _ hip,
    takeWhile_cons_neg _ (by decide), dropWhile_cons_neg _ (by decide),
    splitFrac_not_dot _ (by decide)]
  simp [isEmpty_false_of_ne_nil hne, hrest]

theorem parseNumeric_frac_exp {ip fp rest : List Char} {ev : Int}
    (hip : ∀ c ∈ ip, c.isDigit = true) (hfp : ∀ c ∈ fp, c.isDigit = true) (hne : ip ≠ [])
    (hrest : parseSignedDigits rest = some ev) :
    parseNumeric (ip ++ '.' :: (fp ++ 'E' :: rest))
      = some (coeffOfChars (ip ++ fp), ev - fp.length) := by
  simp only [parseNumeric]
  rw [takeWhile_append_all _ hip, dropWhile_append_all _ hip,
    takeWhile_cons_neg _ (by decide), dropWhile_cons_neg _ (by decide), splitFrac_dot,
    takeWhile_append_all _ hfp, dropWhile_append_all _ hfp,
    takeWhile_cons_neg _ (by decide), dropWhile_cons_neg _ (by decide)]
  simp [isEmpty_false_of_ne_nil hne, hrest]

theorem parseDecCore_shape (s : Bool) (ip rest : List Char) (c : Nat) (e : Int)
    (hip : ∀ x ∈ ip, x.isDigit = true) (hne : ip ≠ [])
    (hnum : parseNumeric (ip ++ rest) = some (c, e)) :
    parseDecCore ((if s then ['-'] else []) ++ (ip ++ rest)) = some (.finite s c e) := by
  obtain ⟨d, t, rfl⟩ := List.exists_cons_of_ne_nil hne
  rw [List.cons_append] at hnum
  have hpd := parseSign_cons_digit (t ++ rest) (hip d (List.mem_cons_self d t))
  cases s with
  | true =>
    simp only [parseDecCore]
    simp [parseSign_dash, hnum]
  | false =>
    simp only [parseDecCore]
    simp [hpd, hnum]

/-! ### The four shapes the formatter produces for finite values -/

theorem decToSci_A1 (s : Bool) (c : Nat) (e : Int)
    (hA : e ≤ 0 ∧ -6 < e + ((coeffChars c).length : Int))
    (h1 : e + ((coeffChars c).length : Int) ≤ 0) :
    decToSciChars (.finite s c e)
      = (if s then ['-'] else [])
        ++ (['0'] ++ ('.' :: (List.replicate (-(e + ((coeffChars c).length : Int))).toNat '0'
              ++ coeffChars c))) := by
  simp only [decToSciChars]
  rw [if_pos hA, if_pos h1, if_pos rfl]
  simp

theorem decToSci_A3 (s : Bool) (c : Nat) (e : Int)
    (hA : e ≤ 0 ∧ -6 < e + ((coeffChars c).length : Int))
    (h2 : ¬(e + ((coeffChars c).length : Int) ≤ 0))
    (h3 : ((coeffChars c).length : Int) ≤ e + ((coeffChars c).length : Int)) :
    decToSciChars (.finite s c e) = (if s then ['-'] else []) ++ (coeffChars c ++ []) := by
  simp only [decToSciChars]
  rw [if_pos hA, if_neg h2, if_pos h3, if_pos rfl]
  have hz : (e + ((coeffChars c).length : Int) - ((coeffChars c).length : Int)).toNat = 0 := by
    omega
  rw [hz]
  simp

theorem decToSci_A2 (s : Bool) (c : Nat) (e : Int)
    (hA : e ≤ 0 ∧ -6 < e + ((coeffChars c).length : Int))
    (h2 : ¬(e + ((coeffChars c).length : Int) ≤ 0))
    (h4 : ¬(((coeffChars c).length : Int) ≤ e + ((coeffChars c).length : Int))) :
    decToSciChars (.finite s c e)
      = (if s then ['-'] else [])
        ++ ((coeffChars c).take (e + ((coeffChars c).length : Int)).toNat
            ++ '.' :: (coeffChars c).drop (e + ((coeffChars c).length : Int)).toNat) := by
  simp only [decToSciChars]
  rw [if_pos hA, if_neg h2, if_neg h4, if_pos rfl]
  simp

theorem decToSci_B1 (s : Bool) (c : Nat) (e : Int)
    (hB : ¬(e ≤ 0 ∧ -6 < e + ((coeffChars c).length : Int)))
    (hL1 : ((coeffChars c).length : Int) ≤ 1) :
    decToSciChars (.finite s c e)
      = (if s then ['-'] else [])
        ++ (coeffChars c
            ++ ('E' :: intSignedChars (e + ((coeffChars c).length : Int) - 1))) := by
  have hL : 0 < (coeffChars c).length := List.length_pos.mpr (coeffChars_ne_nil c)
  simp only [decToSciChars]
  rw [if_neg hB, if_neg (by norm_num : ¬((1 : Int) ≤ 0)), if_pos hL1,
    if_neg (by omega : ¬(e + ((coeffChars c).length : Int) = 1))]
  have hz : ((1 : Int) - ((coeffChars c).length : Int)).toNat = 0 := by omega
  rw [hz]
  simp

theorem decToSci_B2 (s : Bool) (c : Nat) (e : Int)
    (hB : ¬(e ≤ 0 ∧ -6 < e + ((coeffChars c).length : Int)))
    (h5 : ¬(((coeffChars c).length : Int) ≤ 1)) :
    decToSciChars (.finite s c e)
      = (if s then ['-'] else [])
        ++ ((coeffChars c).take 1
            ++ '.' :: ((coeffChars c).drop 1
                ++ ('E' :: intSignedChars (e + ((coeffChars c).length : Int) - 1)))) := by
  have hL : 0 < (coeffChars c).length := List.length_pos.mpr (coeffChars_ne_nil c)
  simp only [decToSciChars]
  rw [if_neg hB, if_neg (by norm_num : ¬((1 : Int) ≤ 0)), if_neg h5,
    if_neg (by omega : ¬(e + ((coeffChars c).length : Int) = 1))]
  simp

/-! ### The decimal-string round trip -/

theorem parseDecCore_decToSciChars (s : Bool) (c : Nat) (e : Int) :
    parseDecCore (decToSciChars (.finite s c e)) = some (.finite s c e) := by
  have hdig := coeffChars_digits c
  have hne := coeffChars_ne_nil c
  have hL : 0 < (coeffChars c).length := List.length_pos.mpr hne
  by_cases hA : e ≤ 0 ∧ -6 < e + ((coeffChars c).length : Int)
  · by_cases h1 : e + ((coeffChars c).length : Int) ≤ 0
    · rw [decToSci_A1 s c e hA h1]
      have hip : ∀ x ∈ (['0'] : List Char), x.isDigit = true := by
        intro x hx
        rcases List.mem_singleton.mp hx with rfl
        decide
      have hfp : ∀ x ∈ List.replicate (-(e + ((coeffChars c).length : Int))).toNat '0'
          ++ coeffChars c, x.isDigit = true := by
        intro x hx
        rcases List.mem_append.mp hx with hx | hx
        · rcases List.eq_of_mem_replicate hx with ⟨rfl, _⟩
          decide
        · exact hdig x hx
      refine parseDecCore_shape s ['0'] _ c e hip (by simp) ?_
      rw [parseNumeric_frac hip hfp (by simp)]
      have hc : coeffOfChars (['0'] ++ (List.replicate
          (-(e + ((coeffChars c).length : Int))).toNat '0' ++ coeffChars c)) = c := by
        rw [List.singleton_append, coeffOfChars_cons_zero, coeffOfChars_replicate_zero_append,
          coeffOfChars_coeffChars]
      rw [hc]
      simp only [Option.some.injEq, Prod.mk.injEq, List.length_append, List.length_replicate]
      refine ⟨trivial, ?_⟩
      omega
    · by_cases h3 : ((coeffChars c).length : Int) ≤ e + ((coeffChars c).length : Int)
      · rw [decToSci_A3 s c e hA h1 h3]
        refine parseDecCore_shape s (coeffChars c) [] c e hdig hne ?_
        rw [List.append_nil, parseNumeric_int hdig hne, coeffOfChars_coeffChars]
        have he : e = 0 := by omega
        rw [he]
      · rw [decToSci_A2 s c e hA h1 h3]
        have htk : (coeffChars c).take (e + ((coeffChars c).length : Int)).toNat ≠ [] := by
          intro hnil
          have hlen := congrArg List.length hnil
          simp only [List.length_take, List.length_nil] at hlen
          omega
        refine parseDecCore_shape s
          ((coeffChars c).take (e + ((coeffChars c).length : Int)).toNat)
          ('.' :: (coeffChars c).drop (e + ((coeffChars c).length : Int)).toNat) c e
          (fun x hx => hdig x (List.take_subset _ _ hx)) htk ?_
        rw [parseNumeric_frac (fun x hx => hdig x (List.take_subset _ _ hx))
          (fun x hx => hdig x (List.drop_subset _ _ hx)) htk]
        rw [List.take_append_drop, coeffOfChars_coeffChars]
        simp only [Option.some.injEq, Prod.mk.injEq, List.length_drop]
        refine ⟨trivial, ?_⟩
        omega
  · by_cases hL1 : ((coeffChars c).length : Int) ≤ 1
    · rw [decToSci_B1 s c e hA hL1]
      refine parseDecCore_shape s (coeffChars c)
        ('E' :: intSignedChars (e + ((coeffChars c).length : Int) - 1)) c e hdig hne ?_
      rw [parseNumeric_int_exp hdig hne (parseSignedDigits_intSignedChars _),
        coeffOfChars_coeffChars]
      simp only [Option.some.injEq, Prod.mk.injEq]
      refine ⟨trivial, ?_⟩
      omega
    · rw [decToSci_B2 s c e hA hL1]
      have htk : (coeffChars c).take 1 ≠ [] := by
        intro hnil
        have hlen := congrArg List.length hnil
        simp only [List.length_take, List.length_nil] at hlen
        omega
      refine parseDecCore_shape s ((coeffChars c).take 1)
        ('.' :: ((coeffChars c).drop 1
          ++ 'E' :: intSignedChars (e + ((coeffChars c).length : Int) - 1))) c e
        (fun x hx => hdig x (List.take_subset _ _ hx)) htk ?_
      rw [parseNumeric_frac_exp (fun x hx => hdig x (List.take_subset _ _ hx))
        (fun x hx => hdig x (List.drop_subset _ _ hx)) htk (parseSignedDigits_intSignedChars _)]
      rw [List.take_append_drop, coeffOfChars_coeffChars]
      simp only [Option.some.injEq, Prod.mk.injEq, List.length_drop]
      refine ⟨trivial, ?_⟩
      omega

/-- Round trip: parsing the string `Decimal.__str__` produces for a finite
value recovers the value exactly (sign, coefficient and exponent). -/
theorem parseDecimalString_decToString (s : Bool) (c : Nat) (e : Int) :
    parseDecimalString (decToString (.finite s c e)) = some (.finite s c e) := by
  unfold parseDecimalString decToString
  have hchars : ∀ x ∈ decToSciChars (.finite s c e), sciChar x :=
    fun x hx => sciChar_decToSciChars hx
  rw [show (String.mk (decToSciChars (.finite s c e))).data
      = decToSciChars (.finite s c e) from rfl]
  rw [pyStrip_of_no_ws (fun x hx => not_ws_of_sciChar (hchars x hx)),
    filter_of_no_underscore (fun x hx => not_underscore_of_sciChar (hchars x hx))]
  exact parseDecCore_decToSciChars s c e

/-! ### Supporting lemmas for the model operations -/

theorem Category.fromName_name (c : Category) : Category.fromName c.name = some c := by
  cases c <;> rfl

theorem truthy_str {s : String} (h : s ≠ "") : (PyValue.str s).truthy = true := by
  simp [PyValue.truthy, h]

theorem decimalFromValue_decToString (s : Bool) (c : Nat) (e : Int) :
    decimalFromValue (.str (decToString (.finite s c e))) = .ok (.finite s c e) := by
  simp [decimalFromValue, parseDecimalString_decToString]

theorem decLtZero_false {s : Bool} {c : Nat} {e : Int} (h : s = true → c = 0) :
    decLtZero (.finite s c e) = .ok false := by
  cases s with
  | false => simp [decLtZero]
  | true => simp [decLtZero, h rfl]

theorem find?_cons_pos {α : Type} (p : α → Bool) (a : α) (l : List α) (h : p a = true) :
    (a :: l).find? p = some a :=
  List.find?_cons_of_pos l h

theorem find?_cons_neg {α : Type} (p : α → Bool) (a : α) (l : List α) (h : p a = false) :
    (a :: l).find? p = l.find? p :=
  List.find?_cons_of_neg l (by rw [h]; exact Bool.false_ne_true)

theorem findId_map_self {rows : List Product} {p : Product} {i : Int} (hid : p.id = some i)
    (hex : (rows.find? (fun r => r.id == some i)).isSome = true) :
    (rows.map (fun r => if r.id == p.id then p else r)).find? (fun r => r.id == some i)
      = some p := by
  induction rows with
  | nil => simp at hex
  | cons r t ih =>
    by_cases hr : r.id = some i
    · have hbeq : (r.id == some i) = true := beq_iff_eq.mpr hr
      have hpb : (r.id == p.id) = true := by rw [hid]; exact hbeq
      have hpp : (p.id == some i) = true := by rw [hid]; exact beq_self_eq_true _
      simp only [List.map_cons, hpb, if_true]
      rw [find?_cons_pos (fun r => r.id == some i) p _ hpp]
    · have hbeq : (r.id == some i) = false := beq_eq_false_iff_ne.mpr hr
      have hpb : (r.id == p.id) = false := by
        rw [hid]
        exact beq_eq_false_iff_ne.mpr hr
      have hex' : (t.find? (fun r => r.id == some i)).isSome = true := by
        rw [find?_cons_neg (fun r => r.id == some i) r t hbeq] at hex
        exact hex
      simp only [List.map_cons, hpb, Bool.false_eq_true, if_false]
      rw [find?_cons_neg (fun r => r.id == some i) r _ hbeq]
      exact ih hex'

theorem findId_filter_out {rows : List Product} {i : Int} :
    (rows.filter (fun r => !(r.id == some i))).find? (fun r => r.id == some i)
      = Option.none := by
  induction rows with
  | nil => rfl
  | cons r t ih =>
    by_cases hr : r.id = some i
    · have hbeq : (r.id == some i) = true := beq_iff_eq.mpr hr
      simp only [List.filter_cons, hbeq, Bool.not_true, Bool.false_eq_true, if_false]
      exact ih
    · have hbeq : (r.id == some i) = false := beq_eq_false_iff_ne.mpr hr
      simp only [List.filter_cons, hbeq, Bool.not_false, if_true]
      rw [find?_cons_neg (fun r => r.id == some i) r _ hbeq]
      exact ih

/-! ### Additional helper lemmas for the claims -/

theorem decLtZero_true {c : Nat} {e : Int} (h : c ≠ 0) :
    decLtZero (.finite true c e) = .ok true := by
  simp [decLtZero, h]

theorem deserializeChecks_fst (x : Product) : (deserializeChecks x).1 = x := by
  unfold deserializeChecks
  split
  · rfl
  · split <;> rfl

theorem deserializeChecks_err (x : Product)
    (hfail : x.name.truthy = false ∨ x.description.truthy = false
      ∨ decLtZero x.price = .ok true) :
    ∃ m, (deserializeChecks x).2 = some (.dataValidationError m) := by
  unfold deserializeChecks
  by_cases hc : (!x.name.truthy || !x.description.truthy) = true
  · rw [if_pos hc]
    exact ⟨_, rfl⟩
  · rw [if_neg hc]
    have h3 : decLtZero x.price = .ok true := by
      rcases hfail with h | h | h
      · exact absurd (by simp [h]) hc
      · exact absurd (by simp [h]) hc
      · exact h
    rw [h3]
    exact ⟨_, rfl⟩

/-! ### The claims -/

/-- C1: for every Product satisfying the data-model invariants (name and
description non-empty strings, price a finite non-negative decimal,
category a member of the enumeration — the model's `category` field can
only hold members), `deserialize` applied to any receiver with the mapping
produced by `serialize` succeeds and copies name, description, price,
available and category from the serialized product, while the receiver's
`id` is carried through unchanged (the `"id"` key is never read). -/
theorem C1_serialize_deserialize_roundtrip (p q : Product) (ns dsc : String)
    (sgn : Bool) (c : Nat) (e : Int)
    (hn : p.name = .str ns) (hn2 : ns ≠ "")
    (hd : p.description = .str dsc) (hd2 : dsc ≠ "")
    (hp : p.price = .finite sgn c e) (hpc : sgn = true → c = 0) :
    Product.deserialize q (.dict (Product.serialize p))
      = ({ q with
            name := p.name
            description := p.description
            price := p.price
            available := p.available
            category := p.category }, Option.none) := by
  rw [hp]
  simp only [Product.serialize, Product.deserialize, Product.deserializeFields, dictGet,
    String.reduceEq, reduceIte, decimalFromValue_decToString, Category.fromName_name,
    deserializeChecks, hp]
  rw [hn, hd, truthy_str hn2, truthy_str hd2, decLtZero_false hpc]
  simp

/-- Witness for C1 at a concrete valid product. -/
theorem C1_roundtrip_witness :
    Product.deserialize freshProduct (.dict (Product.serialize
      { id := some 7
        name := PyValue.str "Hat"
        description := PyValue.str "A red hat"
        price := PyDecimal.finite false 100 (-2)
        available := PyValue.bool true
        category := Category.FOOD }))
      = ({ freshProduct with
            name := PyValue.str "Hat"
            description := PyValue.str "A red hat"
            price := PyDecimal.finite false 100 (-2)
            available := PyValue.bool true
            category := Category.FOOD }, Option.none) :=
  C1_serialize_deserialize_roundtrip
    { id := some 7
      name := PyValue.str "Hat"
      description := PyValue.str "A red hat"
      price := PyDecimal.finite false 100 (-2)
      available := PyValue.bool true
      category := Category.FOOD }
    freshProduct "Hat" "A red hat" false 100 (-2) rfl (by decide) rfl (by decide) rfl
    (by intro h; exact absurd h (by decide))

/-- C2 (code bug): `deserialize` on a mapping whose `category` value is a
string that names no `Category` member raises `AttributeError` (from
`getattr(Category, ...)`), which no handler in `deserialize` catches — not
the `DataValidationError` the claim (and the spec) promise. -/
theorem C2_bad_category_attribute_error :
    (Product.deserialize freshProduct (.dict
      [("name", PyValue.str "Hat"), ("description", PyValue.str "A red hat"),
       ("price", PyValue.str "1.00"), ("available", PyValue.bool true),
       ("category", PyValue.str "SPORTS")])).2
      = some (PyErr.attributeError "SPORTS")
    ∧ ∀ m, (Product.deserialize freshProduct (.dict
      [("name", PyValue.str "Hat"), ("description", PyValue.str "A red hat"),
       ("price", PyValue.str "1.00"), ("available", PyValue.bool true),
       ("category", PyValue.str "SPORTS")])).2
      ≠ some (PyErr.dataValidationError m) := by
  constructor
  · rfl
  · intro m h
    rw [show (Product.deserialize freshProduct (.dict
      [("name", PyValue.str "Hat"), ("description", PyValue.str "A red hat"),
       ("price", PyValue.str "1.00"), ("available", PyValue.bool true),
       ("category", PyValue.str "SPORTS")])).2 = some (PyErr.attributeError "SPORTS")
      from rfl] at h
    exact absurd (Option.some.inj h) (by simp)

/-- C3 counterexample: `create()` accepts a Product whose name is the
empty string — it has no failure path at all — and the stored row keeps
the empty name; a subsequent `update()` on that row also succeeds.  This
refutes the claim that create() and update() reject empty names. -/
theorem C3_counterexample :
    (Product.create
        { freshProduct with name := PyValue.str "", description := PyValue.str "Things" }
        { rows := [], nextId := 1 }).2.rows
      = [{ freshProduct with
            id := some 1
            name := PyValue.str ""
            description := PyValue.str "Things" }]
    ∧ (Product.create
        { freshProduct with name := PyValue.str "", description := PyValue.str "Things" }
        { rows := [], nextId := 1 }).1.name = PyValue.str ""
    ∧ (Product.update
        { freshProduct with
            id := some 1
            name := PyValue.str ""
            description := PyValue.str "Things" }
        (Product.create
          { freshProduct with name := PyValue.str "", description := PyValue.str "Things" }
          { rows := [], nextId := 1 }).2).2
      = Option.none :=
  ⟨rfl, rfl, rfl⟩

/-- C3 amended: `create()` and `update()` perform no validation of `name`
or `description`: `create` always succeeds (it has no failure path) and
stores the instance's field values verbatim, empty or not, under the fresh
id; `update` on a resolvable id succeeds and overwrites the stored row
with the instance verbatim.  Non-emptiness of name and description is
enforced only by `deserialize` (see C1/C10), not by the lifecycle
operations. -/
theorem C3_create_update_no_validation (p : Product) (s : Store) :
    ((Product.create p s).2.rows = s.rows ++ [(Product.create p s).1]
      ∧ (Product.create p s).1.name = p.name
      ∧ (Product.create p s).1.description = p.description
      ∧ (Product.create p s).1.id = some s.nextId)
    ∧ (∀ i, p.id = some i → i ≠ 0 → (Store.findId s i).isSome = true →
        (Product.update p s).2 = Option.none
          ∧ Store.findId (Product.update p s).1 i = some p) := by
  constructor
  · exact ⟨rfl, rfl, rfl, rfl⟩
  · intro i hid hnz hex
    have htr : idTruthy p.id = true := by
      rw [hid]
      simp [idTruthy, hnz]
    have hq : (Store.queryGet s p.id).isNone = false := by
      rw [hid]
      simp only [Store.queryGet]
      obtain ⟨v, hv⟩ := Option.isSome_iff_exists.mp hex
      rw [hv]
      rfl
    constructor
    · simp [Product.update, htr, hq]
    · simp only [Product.update, htr, hq, Bool.not_true, Bool.false_or, Bool.false_eq_true,
        if_false]
      exact findId_map_self hid hex

/-- Witness for C3 amended at a concrete product (empty name) and store. -/
theorem C3_no_validation_witness :
    (Product.update
        { freshProduct with id := some 1, name := PyValue.str "" }
        { rows := [{ freshProduct with id := some 1, name := PyValue.str "" }], nextId := 2 }).2
      = Option.none
    ∧ Store.findId
        (Product.update
          { freshProduct with id := some 1, name := PyValue.str "" }
          { rows := [{ freshProduct with id := some 1, name := PyValue.str "" }], nextId := 2 }).1 1
      = some { freshProduct with id := some 1, name := PyValue.str "" } :=
  (C3_create_update_no_validation
    { freshProduct with id := some 1, name := PyValue.str "" }
    { rows := [{ freshProduct with id := some 1, name := PyValue.str "" }], nextId := 2 }).2
    1 rfl (by decide) rfl

/-- C4: for each required key `k`, `deserialize` applied to a mapping that
holds the other required keys but not `k` fails with a
`DataValidationError` whose message names `k` (the hypothesis that the
price entry converts to a Decimal is needed so that, when `k` comes after
`"price"` in the assignment order, execution reaches the lookup of `k`). -/
theorem C4_missing_key_named (k : String) (nv dv pv av cv : PyValue) (pd : PyDecimal)
    (q : Product)
    (hk : k ∈ ["name", "description", "price", "available", "category"])
    (hpv : decimalFromValue pv = .ok pd) :
    (Product.deserialize q (.dict (removeKey
        [("name", nv), ("description", dv), ("price", pv), ("available", av), ("category", cv)]
        k))).2
      = some (.dataValidationError ("Invalid product: missing " ++ k)) := by
  fin_cases hk <;>
    simp [removeKey, Product.deserialize, Product.deserializeFields, dictGet, hpv]

/-- Witness for C4 at the key `"available"` and a mapping with a parseable
price. -/
theorem C4_missing_key_witness :
    (Product.deserialize freshProduct (.dict (removeKey
        [("name", PyValue.str "Hat"), ("description", PyValue.str "A red hat"),
         ("price", PyValue.str "1.00"), ("available", PyValue.bool true),
         ("category", PyValue.str "FOOD")] "available"))).2
      = some (.dataValidationError ("Invalid product: missing " ++ "available")) :=
  C4_missing_key_named "available" (PyValue.str "Hat") (PyValue.str "A red hat")
    (PyValue.str "1.00") (PyValue.bool true) (PyValue.str "FOOD")
    (PyDecimal.finite false 100 (-2)) freshProduct (by simp) rfl

/-- C5 counterexample: the claim says no exception other than a validation
error escapes the price handling, "including for inputs such as the string
NaN" — but `Decimal("NaN")` parses successfully, and the later check
`self.price < 0` (outside the try block) raises `decimal.InvalidOperation`,
which escapes `deserialize` uncaught. -/
theorem C5_nan_escapes :
    (Product.deserialize freshProduct (.dict
      [("name", PyValue.str "Hat"), ("description", PyValue.str "A red hat"),
       ("price", PyValue.str "NaN"), ("available", PyValue.bool true),
       ("category", PyValue.str "FOOD")])).2
      = some PyErr.invalidOperation
    ∧ ∀ m, (Product.deserialize freshProduct (.dict
      [("name", PyValue.str "Hat"), ("description", PyValue.str "A red hat"),
       ("price", PyValue.str "NaN"), ("available", PyValue.bool true),
       ("category", PyValue.str "FOOD")])).2
      ≠ some (PyErr.dataValidationError m) := by
  constructor
  · rfl
  · intro m h
    rw [show (Product.deserialize freshProduct (.dict
      [("name", PyValue.str "Hat"), ("description", PyValue.str "A red hat"),
       ("price", PyValue.str "NaN"), ("available", PyValue.bool true),
       ("category", PyValue.str "FOOD")])).2 = some PyErr.invalidOperation
      from rfl] at h
    exact absurd (Option.some.inj h) (by simp)

/-- C5 amended: a price string that fails decimal parsing yields
`DataValidationError "Invalid price value"`; a price that parses to a
finite negative value (with name and description truthy so execution
reaches the sign check, and a valid category) yields
`DataValidationError "Invalid product: price must be >= 0"`; but a price
that parses to a NaN reaches the `price < 0` comparison, which raises
`decimal.InvalidOperation`, an exception that escapes `deserialize`
and is not a validation error. -/
theorem C5_price_errors :
    (∀ (q : Product) (nv dv av cv : PyValue) (s : String),
      parseDecimalString s = Option.none →
      (Product.deserialize q (.dict
        [("name", nv), ("description", dv), ("price", PyValue.str s),
         ("available", av), ("category", cv)])).2
        = some (.dataValidationError "Invalid price value"))
    ∧ (∀ (q : Product) (nv dv av : PyValue) (pv : PyValue) (c : Nat) (e : Int)
        (cs : String) (cm : Category),
      decimalFromValue pv = .ok (.finite true c e) → c ≠ 0 →
      nv.truthy = true → dv.truthy = true → Category.fromName cs = some cm →
      (Product.deserialize q (.dict
        [("name", nv), ("description", dv), ("price", pv),
         ("available", av), ("category", PyValue.str cs)])).2
        = some (.dataValidationError "Invalid product: price must be >= 0"))
    ∧ (∀ (q : Product) (nv dv av : PyValue) (pv : PyValue) (sg : Bool)
        (cs : String) (cm : Category),
      decimalFromValue pv = .ok (.nan sg) →
      nv.truthy = true → dv.truthy = true → Category.fromName cs = some cm →
      (Product.deserialize q (.dict
        [("name", nv), ("description", dv), ("price", pv),
         ("available", av), ("category", PyValue.str cs)])).2
        = some PyErr.invalidOperation) := by
  refine ⟨?_, ?_, ?_⟩
  · intro q nv dv av cv s hs
    simp [Product.deserialize, Product.deserializeFields, dictGet, decimalFromValue, hs]
  · intro q nv dv av pv c e cs cm hpv hc hnv hdv hcs
    simp [Product.deserialize, Product.deserializeFields, dictGet, hpv, hcs,
      deserializeChecks, hnv, hdv, decLtZero_true hc]
  · intro q nv dv av pv sg cs cm hpv hnv hdv hcs
    simp [Product.deserialize, Product.deserializeFields, dictGet, hpv, hcs,
      deserializeChecks, hnv, hdv, decLtZero]

/-- Witness for C5 amended: an unparseable price string, a negative price,
and a NaN price, all concrete. -/
theorem C5_price_errors_witness :
    (Product.deserialize freshProduct (.dict
      [("name", PyValue.str "Hat"), ("description", PyValue.str "A red hat"),
       ("price", PyValue.str "not-a-decimal"), ("available", PyValue.bool true),
       ("category", PyValue.str "FOOD")])).2
      = some (.dataValidationError "Invalid price value")
    ∧ (Product.deserialize freshProduct (.dict
      [("name", PyValue.str "Hat"), ("description", PyValue.str "A red hat"),
       ("price", PyValue.str "-5.00"), ("available", PyValue.bool true),
       ("category", PyValue.str "FOOD")])).2
      = some (.dataValidationError "Invalid product: price must be >= 0")
    ∧ (Product.deserialize freshProduct (.dict
      [("name", PyValue.str "Hat"), ("description", PyValue.str "A red hat"),
       ("price", PyValue.str "sNaN"), ("available", PyValue.bool true),
       ("category", PyValue.str "FOOD")])).2
      = some PyErr.invalidOperation :=
  ⟨C5_price_errors.1 freshProduct (PyValue.str "Hat") (PyValue.str "A red hat")
      (PyValue.bool true) (PyValue.str "FOOD") "not-a-decimal" rfl,
   C5_price_errors.2.1 freshProduct (PyValue.str "Hat") (PyValue.str "A red hat")
      (PyValue.bool true) (PyValue.str "-5.00") 500 (-2) "FOOD" Category.FOOD rfl
      (by decide) rfl rfl rfl,
   C5_price_errors.2.2 freshProduct (PyValue.str "Hat") (PyValue.str "A red hat")
      (PyValue.bool true) (PyValue.str "sNaN") true "FOOD" Category.FOOD rfl rfl rfl rfl⟩

/-- C6: `update()` raises `DataValidationError "Update called with invalid
ID field"` and leaves the store unchanged whenever the instance's id is
falsy (`None` or `0`, the code's `not self.id`) or does not resolve to a
stored row; when the id resolves, `update()` succeeds and the stored row
under that id becomes the instance's current in-memory field values in
full (full-overwrite semantics), with the rest of the store's metadata
untouched. -/
theorem C6_update_semantics (p : Product) (s : Store) :
    ((idTruthy p.id = false ∨ Store.queryGet s p.id = Option.none) →
      Product.update p s
        = (s, some (.dataValidationError "Update called with invalid ID field")))
    ∧ (∀ i, p.id = some i → i ≠ 0 → (Store.findId s i).isSome = true →
      (Product.update p s).2 = Option.none
        ∧ Store.findId (Product.update p s).1 i = some p
        ∧ (Product.update p s).1.nextId = s.nextId) := by
  constructor
  · intro h
    rcases h with h | h
    · simp [Product.update, h]
    · simp [Product.update, h]
  · intro i hid hnz hex
    have htr : idTruthy p.id = true := by
      rw [hid]
      simp [idTruthy, hnz]
    have hq : (Store.queryGet s p.id).isNone = false := by
      rw [hid]
      simp only [Store.queryGet]
      obtain ⟨v, hv⟩ := Option.isSome_iff_exists.mp hex
      rw [hv]
      rfl
    refine ⟨?_, ?_, ?_⟩
    · simp [Product.update, htr, hq]
    · simp only [Product.update, htr, hq, Bool.not_true, Bool.false_or, Bool.false_eq_true,
        if_false]
      exact findId_map_self hid hex
    · simp [Product.update, htr, hq]

/-- Witness for C6: an unset id fails; a resolvable id overwrites. -/
theorem C6_update_witness :
    Product.update { freshProduct with name := PyValue.str "Hat" }
        { rows := [], nextId := 1 }
      = ({ rows := [], nextId := 1 },
         some (.dataValidationError "Update called with invalid ID field"))
    ∧ Store.findId
        (Product.update { freshProduct with id := some 1, name := PyValue.str "NewName" }
          { rows := [{ freshProduct with id := some 1, name := PyValue.str "Hat" }],
            nextId := 2 }).1 1
      = some { freshProduct with id := some 1, name := PyValue.str "NewName" } :=
  ⟨(C6_update_semantics { freshProduct with name := PyValue.str "Hat" }
      { rows := [], nextId := 1 }).1 (Or.inl rfl),
   ((C6_update_semantics { freshProduct with id := some 1, name := PyValue.str "NewName" }
      { rows := [{ freshProduct with id := some 1, name := PyValue.str "Hat" }],
        nextId := 2 }).2 1 rfl (by decide) rfl).2.1⟩

/-- C7: `delete()` on a falsy id (`None` or `0`) raises
`DataValidationError "Delete called with empty ID field"` with the store
unchanged; on a truthy id that resolves to no row it raises
`DataValidationError "Attempt to delete a Product that does not exist"`
with the store unchanged; on an existing id it succeeds and removes the
row, so a subsequent `find(id)` returns nothing. -/
theorem C7_delete_semantics (p : Product) (s : Store) :
    (idTruthy p.id = false →
      Product.delete p s
        = (s, some (.dataValidationError "Delete called with empty ID field")))
    ∧ (∀ i, p.id = some i → i ≠ 0 → Store.findId s i = Option.none →
      Product.delete p s
        = (s, some (.dataValidationError "Attempt to delete a Product that does not exist")))
    ∧ (∀ i, p.id = some i → i ≠ 0 → (Store.findId s i).isSome = true →
      (Product.delete p s).2 = Option.none
        ∧ Product.find (Product.delete p s).1 i = Option.none) := by
  refine ⟨?_, ?_, ?_⟩
  · intro h
    simp [Product.delete, h]
  · intro i hid hnz hnone
    have htr : idTruthy p.id = true := by
      rw [hid]
      simp [idTruthy, hnz]
    have hq : Store.queryGet s p.id = Option.none := by
      rw [hid]
      simpa [Store.queryGet] using hnone
    simp [Product.delete, htr, hq]
  · intro i hid hnz hex
    have htr : idTruthy p.id = true := by
      rw [hid]
      simp [idTruthy, hnz]
    obtain ⟨v, hv⟩ := Option.isSome_iff_exists.mp hex
    have hq : Store.queryGet s p.id = some v := by
      rw [hid]
      simpa [Store.queryGet] using hv
    constructor
    · simp [Product.delete, htr, hq]
    · simp only [Product.delete, htr, Bool.not_true, Bool.false_eq_true, if_false, hq,
        Product.find, Store.findId]
      rw [hid]
      exact findId_filter_out

/-- Witness for C7: empty id fails; missing id fails; existing id is
removed and no longer found. -/
theorem C7_delete_witness :
    Product.delete { freshProduct with name := PyValue.str "Hat" } { rows := [], nextId := 1 }
      = ({ rows := [], nextId := 1 },
         some (.dataValidationError "Delete called with empty ID field"))
    ∧ Product.delete { freshProduct with id := some 9 } { rows := [], nextId := 1 }
      = ({ rows := [], nextId := 1 },
         some (.dataValidationError "Attempt to delete a Product that does not exist"))
    ∧ Product.find
        (Product.delete { freshProduct with id := some 1 }
          { rows := [{ freshProduct with id := some 1 }], nextId := 2 }).1 1
      = Option.none :=
  ⟨(C7_delete_semantics { freshProduct with name := PyValue.str "Hat" }
      { rows := [], nextId := 1 }).1 rfl,
   (C7_delete_semantics { freshProduct with id := some 9 }
      { rows := [], nextId := 1 }).2.1 9 rfl (by decide) rfl,
   ((C7_delete_semantics { freshProduct with id := some 1 }
      { rows := [{ freshProduct with id := some 1 }], nextId := 2 }).2.2 1 rfl
      (by decide) rfl).2⟩

/-- C8: if database initialization fails with any exception `e`, the
bootstrap logs `"%s: Cannot continue" % e` at critical severity (the
message contains the failure cause `e`) and terminates the process via
`sys.exit(4)` — exit status 4, which is neither 0 nor 1; if initialization
succeeds, the bootstrap does not terminate the process. -/
theorem C8_bootstrap_behaviour (r : Except String Unit) :
    (∀ e, r = .error e →
      (serviceBootstrap r).exitCode = some 4
        ∧ (LogLevel.critical, e ++ ": Cannot continue") ∈ (serviceBootstrap r).logs)
    ∧ (r = .ok () → (serviceBootstrap r).exitCode = Option.none) := by
  constructor
  · rintro e rfl
    exact ⟨rfl, List.mem_singleton.mpr rfl⟩
  · rintro rfl
    rfl

/-- Witness for C8 at a concrete failure and at success. -/
theorem C8_bootstrap_witness :
    (serviceBootstrap (.error "DB connection failed")).exitCode = some 4
    ∧ (LogLevel.critical, "DB connection failed" ++ ": Cannot continue")
        ∈ (serviceBootstrap (.error "DB connection failed")).logs
    ∧ (serviceBootstrap (.ok ())).exitCode = Option.none :=
  ⟨((C8_bootstrap_behaviour (.error "DB connection failed")).1 "DB connection failed" rfl).1,
   ((C8_bootstrap_behaviour (.error "DB connection failed")).1 "DB connection failed" rfl).2,
   (C8_bootstrap_behaviour (.ok ())).2 rfl⟩

/-- C9: `deserialize` performs no check at all on the `"available"` entry:
for any mapping whose name and description are truthy, whose price
converts to a non-negative decimal and whose category is a valid member
name, any value whatsoever for `"available"` — a string, an integer,
anything — is assigned verbatim to the `available` field and `deserialize`
succeeds. -/
theorem C9_available_not_validated (q : Product) (nv dv av pv : PyValue) (pd : PyDecimal)
    (cs : String) (cm : Category)
    (hpv : decimalFromValue pv = .ok pd)
    (hlt : decLtZero pd = .ok false)
    (hnv : nv.truthy = true) (hdv : dv.truthy = true)
    (hcs : Category.fromName cs = some cm) :
    Product.deserialize q (.dict
      [("name", nv), ("description", dv), ("price", pv),
       ("available", av), ("category", PyValue.str cs)])
      = ({ q with
            name := nv
            description := dv
            price := pd
            available := av
            category := cm }, Option.none) := by
  simp only [Product.deserialize, Product.deserializeFields, dictGet, String.reduceEq,
    reduceIte, hpv, hcs, deserializeChecks, hnv, hdv, hlt]
  simp

/-- Witness for C9: a string value and an integer value for `available`
are both accepted verbatim. -/
theorem C9_available_witness :
    Product.deserialize freshProduct (.dict
      [("name", PyValue.str "Hat"), ("description", PyValue.str "A red hat"),
       ("price", PyValue.str "1.00"), ("available", PyValue.str "maybe"),
       ("category", PyValue.str "FOOD")])
      = ({ freshProduct with
            name := PyValue.str "Hat"
            description := PyValue.str "A red hat"
            price := PyDecimal.finite false 100 (-2)
            available := PyValue.str "maybe"
            category := Category.FOOD }, Option.none)
    ∧ Product.deserialize freshProduct (.dict
      [("name", PyValue.str "Hat"), ("description", PyValue.str "A red hat"),
       ("price", PyValue.str "1.00"), ("available", PyValue.int 7),
       ("category", PyValue.str "FOOD")])
      = ({ freshProduct with
            name := PyValue.str "Hat"
            description := PyValue.str "A red hat"
            price := PyDecimal.finite false 100 (-2)
            available := PyValue.int 7
            category := Category.FOOD }, Option.none) :=
  ⟨C9_available_not_validated freshProduct (PyValue.str "Hat") (PyValue.str "A red hat")
      (PyValue.str "maybe") (PyValue.str "1.00") (PyDecimal.finite false 100 (-2))
      "FOOD" Category.FOOD rfl rfl rfl rfl rfl,
   C9_available_not_validated freshProduct (PyValue.str "Hat") (PyValue.str "A red hat")
      (PyValue.int 7) (PyValue.str "1.00") (PyDecimal.finite false 100 (-2))
      "FOOD" Category.FOOD rfl rfl rfl rfl rfl⟩

/-- C10: `deserialize` is not atomic on the receiver — when one of the
checks performed after field assignment fails (empty name, empty
description, or negative price), the receiver has already been mutated:
all five fields hold the values taken from the mapping, and the raised
error is a `DataValidationError`. -/
theorem C10_mutation_on_late_failure (q : Product) (nv dv av pv : PyValue) (pd : PyDecimal)
    (cs : String) (cm : Category)
    (hpv : decimalFromValue pv = .ok pd)
    (hcs : Category.fromName cs = some cm)
    (hfail : nv.truthy = false ∨ dv.truthy = false ∨ decLtZero pd = .ok true) :
    (Product.deserialize q (.dict
      [("name", nv), ("description", dv), ("price", pv),
       ("available", av), ("category", PyValue.str cs)])).1
      = { q with
            name := nv
            description := dv
            price := pd
            available := av
            category := cm }
    ∧ ∃ m, (Product.deserialize q (.dict
      [("name", nv), ("description", dv), ("price", pv),
       ("available", av), ("category", PyValue.str cs)])).2
      = some (.dataValidationError m) := by
  have hred : Product.deserialize q (.dict
      [("name", nv), ("description", dv), ("price", pv),
       ("available", av), ("category", PyValue.str cs)])
      = deserializeChecks { q with
          name := nv
          description := dv
          price := pd
          available := av
          category := cm } := by
    simp only [Product.deserialize, Product.deserializeFields, dictGet, String.reduceEq,
      reduceIte, hpv, hcs]
  rw [hred]
  exact ⟨deserializeChecks_fst _, deserializeChecks_err _ (by simpa using hfail)⟩

/-- Witness for C10: an empty name together with a negative price; the
receiver starts with different field values and ends up fully mutated. -/
theorem C10_mutation_witness :
    (Product.deserialize
      { id := some 3
        name := PyValue.str "Old"
        description := PyValue.str "Old description"
        price := PyDecimal.finite false 1 0
        available := PyValue.bool false
        category := Category.TOOLS }
      (.dict
        [("name", PyValue.str ""), ("description", PyValue.str "New description"),
         ("price", PyValue.str "-5.00"), ("available", PyValue.bool true),
         ("category", PyValue.str "FOOD")])).1
      = { id := some 3
          name := PyValue.str ""
          description := PyValue.str "New description"
          price := PyDecimal.finite true 500 (-2)
          available := PyValue.bool true
          category := Category.FOOD }
    ∧ ∃ m, (Product.deserialize
      { id := some 3
        name := PyValue.str "Old"
        description := PyValue.str "Old description"
        price := PyDecimal.finite false 1 0
        available := PyValue.bool false
        category := Category.TOOLS }
      (.dict
        [("name", PyValue.str ""), ("description", PyValue.str "New description"),
         ("price", PyValue.str "-5.00"), ("available", PyValue.bool true),
         ("category", PyValue.str "FOOD")])).2
      = some (.dataValidationError m) :=
  C10_mutation_on_late_failure
    { id := some 3
      name := PyValue.str "Old"
      description := PyValue.str "Old description"
      price := PyDecimal.finite false 1 0
      available := PyValue.bool false
      category := Category.TOOLS }
    (PyValue.str "") (PyValue.str "New description") (PyValue.bool true)
    (PyValue.str "-5.00") (PyDecimal.finite true 500 (-2)) "FOOD" Category.FOOD
    rfl rfl (Or.inl rfl)
